import Mathlib

/-!
Verification development for the SimpleVidView repository.

The repository's core is a frame-streaming pipeline:
* `renderer-worker.ts` — a worker owning a WebGL2 context bound to an
  OffscreenCanvas; handles `init` and `frame` messages
  (`initGL`, `renderFrameFromBuffer`, `self.onmessage`).
* `VideoCanvas.tsx` — the control-thread side: a WebSocket `onmessage`
  handler that transfers each incoming `ArrayBuffer` to the worker,
  falling back to a copy when the transferring `postMessage` throws.
* `App.tsx` (`ImageCanvas` variant) — `handleIncomingData` parses an
  8-byte little-endian width/height header off a binary message.
* `App.tsx` / prototype variants — a `ProgressBar` component with a
  drag state machine (`updateProgressFromEvent`, `handleMouseDown`,
  `handleMouseMove`, `handleMouseUp`).

We embed each part as executable Lean definitions (byte buffers are
`List Nat` of byte values, pixel coordinates are `ℚ`), and prove the
frozen claims about them.
-/

/-! ## Worker model (renderer-worker.ts) -/

/-- Environment facts fixed by the host GPU at `init` time: whether
`getContext("webgl2")` yields a context, whether each shader compiles,
whether the program links, and the corresponding info logs. -/
structure GLEnv where
  ctxOk : Bool
  vsCompileOk : Bool
  fsCompileOk : Bool
  linkOk : Bool
  vsLog : String
  fsLog : String
  linkLog : String
deriving DecidableEq

/-- The worker's module-level mutable variables
(`gl`, `videoW`, `videoH`, `texture`, `program`, `vao`).
`gl`/`program`/`vao` are abstracted to whether the handle is non-null;
`texture` carries the texture's byte content when allocated
(`none` models the null handle). -/
structure WorkerState where
  gl : Bool
  videoW : Nat
  videoH : Nat
  texture : Option (List Nat)
  program : Bool
  vao : Bool
deriving DecidableEq

/-- All six module-level variables start out null / zero. -/
def initialWorkerState : WorkerState :=
  { gl := false, videoW := 0, videoH := 0, texture := none,
    program := false, vao := false }

/-- `compileShader`: returns normally when the shader compiles, otherwise
throws `"Shader compile error: " + log`. -/
def compileShader (ok : Bool) (log : String) : Except String Unit :=
  if ok then Except.ok () else Except.error ("Shader compile error: " ++ log)

/-- `createProgram`: compiles the vertex shader, then the fragment shader,
then links; a link failure throws `"Program link error: " + log`. -/
def createProgram (env : GLEnv) : Except String Unit :=
  match compileShader env.vsCompileOk env.vsLog with
  | Except.error e => Except.error e
  | Except.ok _ =>
    match compileShader env.fsCompileOk env.fsLog with
    | Except.error e => Except.error e
    | Except.ok _ =>
      if env.linkOk then Except.ok ()
      else Except.error ("Program link error: " ++ env.linkLog)

/-- `initGL(offscreen, w, h)`. Mirrors the source's mutation order: a
missing WebGL2 context throws before anything is assigned; `gl`, `videoW`
and `videoH` are assigned before `createProgram`, so a shader/link throw
leaves them assigned while `program`, `vao` and `texture` stay null.
On success the VAO, quad buffer and program are set up and the texture is
allocated once at `videoW × videoH` with null (zero) data
(`texImage2D(..., null)`). Returns the state as mutated plus the thrown
message, if any. -/
def initGL (env : GLEnv) (s : WorkerState) (w h : Nat) :
    WorkerState × Option String :=
  if env.ctxOk = false then (s, some "WebGL2 not supported in worker.")
  else
    let s1 : WorkerState := { s with gl := true, videoW := w, videoH := h }
    match createProgram env with
    | Except.error e => (s1, some e)
    | Except.ok _ =>
      let s2 : WorkerState :=
        { s1 with program := true, vao := true,
                  texture := some (List.replicate (w * h * 4) 0) }
      (s2, none)

/-- `renderFrameFromBuffer(ab)`: bails out when `gl`, `texture` or
`program` is null; drops the buffer silently when its byte length differs
from `videoW * videoH * 4`; otherwise uploads the bytes into the existing
texture (`texSubImage2D`, no reallocation) and issues one
`drawArrays` call. Returns the new state and the number of draw calls. -/
def renderFrameFromBuffer (s : WorkerState) (ab : List Nat) :
    WorkerState × Nat :=
  if s.gl = false ∨ s.texture = none ∨ s.program = false then (s, 0)
  else
    let expected := s.videoW * s.videoH * 4
    if ab.length ≠ expected then (s, 0)
    else ({ s with texture := some ab }, 1)

/-- The two message variants the worker accepts (`InitMessage` carries the
OffscreenCanvas, which only feeds the `GLEnv`; `FrameMessage` carries the
buffer's bytes). -/
inductive WorkerMsg where
  | init (videoWidth videoHeight : Nat)
  | frame (buffer : List Nat)
deriving DecidableEq

/-- Messages the worker posts back to the main thread. -/
inductive WorkerOut where
  | error (message : String)
deriving DecidableEq

/-- `self.onmessage`: on `init`, runs `initGL` in a try/catch and posts
`{type:"error", message: String(err)}` on a throw (`String(err)` on an
`Error` object prepends `"Error: "` to its message); on `frame`, calls
`renderFrameFromBuffer` and posts nothing back. Returns the new worker
state, the posted messages, and the number of draw calls issued. -/
def workerOnMessage (env : GLEnv) (s : WorkerState) (msg : WorkerMsg) :
    WorkerState × List WorkerOut × Nat :=
  match msg with
  | WorkerMsg.init w h =>
    match initGL env s w h with
    | (s1, some e) => (s1, [WorkerOut.error ("Error: " ++ e)], 0)
    | (s1, none) => (s1, [], 0)
  | WorkerMsg.frame buf =>
    let r := renderFrameFromBuffer s buf
    (r.1, [], r.2)

/-- Processing a message sequence in order, accumulating posted messages
and the total number of draw calls. -/
def runWorker (env : GLEnv) (s : WorkerState) :
    List WorkerMsg → WorkerState × List WorkerOut × Nat
  | [] => (s, [], 0)
  | m :: rest =>
    let r := workerOnMessage env s m
    let r2 := runWorker env r.1 rest
    (r2.1, r.2.1 ++ r2.2.1, r.2.2 + r2.2.2)

/-- Whether `init` succeeds in a given environment. -/
def envOk (env : GLEnv) : Bool :=
  env.ctxOk && env.vsCompileOk && env.fsCompileOk && env.linkOk

/-! ## Transfer channel model (VideoCanvas.tsx, `ws.onmessage`)

A JavaScript `ArrayBuffer` is its byte content plus a detached flag.
Host-primitive semantics used below (ECMAScript / HTML structured clone):
* `postMessage(msg, [ab])` throws a `DataCloneError` when `ab` is already
  detached (a detached buffer can neither be serialized nor transferred);
  otherwise it delivers the bytes and detaches `ab`.
* `ArrayBuffer.prototype.slice` throws a `TypeError` when the receiver is
  detached; otherwise it returns a fresh, non-detached copy.
* `postMessage(msg, [])` structured-clones the buffer; cloning a detached
  buffer throws a `DataCloneError`, otherwise the bytes are delivered. -/

structure JSArrayBuffer where
  bytes : List Nat
  detached : Bool
deriving DecidableEq

/-- Outcome of one `ws.onmessage` invocation: either some byte payload was
delivered to the worker as a `frame` message, or an exception escaped the
handler (and no frame was delivered). -/
inductive ChannelResult where
  | delivered (payload : List Nat)
  | uncaughtException
deriving DecidableEq

/-- `worker.postMessage({type:"frame", buffer: ab}, [ab])`: transfer-list
post; throws iff the buffer is already detached. -/
def postFrameTransfer (ab : JSArrayBuffer) : Except String (List Nat) :=
  if ab.detached then Except.error "DataCloneError" else Except.ok ab.bytes

/-- `ab.slice(0)`: throws a `TypeError` on a detached buffer, else copies. -/
def abSlice (ab : JSArrayBuffer) : Except String JSArrayBuffer :=
  if ab.detached then Except.error "TypeError"
  else Except.ok { bytes := ab.bytes, detached := false }

/-- `worker.postMessage({type:"frame", buffer: ab}, [])`: structured clone
without transfer; throws iff the buffer is detached. -/
def postFrameClone (ab : JSArrayBuffer) : Except String (List Nat) :=
  if ab.detached then Except.error "DataCloneError" else Except.ok ab.bytes

/-- `ws.onmessage`: tries the transferring post; on a throw, falls back to
`worker.postMessage({type:"frame", buffer: ab.slice(0)}, [])`. A throw
from the fallback itself is uncaught and escapes the handler. -/
def wsOnMessage (ab : JSArrayBuffer) : ChannelResult :=
  match postFrameTransfer ab with
  | Except.ok payload => ChannelResult.delivered payload
  | Except.error _ =>
    match abSlice ab with
    | Except.ok copy =>
      match postFrameClone copy with
      | Except.ok payload => ChannelResult.delivered payload
      | Except.error _ => ChannelResult.uncaughtException
    | Except.error _ => ChannelResult.uncaughtException

/-! ## Header-framing receive path (App.tsx, `ImageCanvas`) -/

/-- `RawImageData` from App.tsx: pixel bytes plus parsed dimensions. -/
structure RawImageData where
  data : List Nat
  width : Nat
  height : Nat
deriving DecidableEq

/-- `DataView.getUint32(off, true)`: four bytes at `off..off+3` assembled
little-endian (byte values reduced mod 256, as a `Uint8Array` stores them). -/
def getUint32LE (bytes : List Nat) (off : Nat) : Nat :=
  bytes.getD off 0 % 256
    + bytes.getD (off + 1) 0 % 256 * 256
    + bytes.getD (off + 2) 0 % 256 * 65536
    + bytes.getD (off + 3) 0 % 256 * 16777216

/-- `handleIncomingData(data)`: rejects messages shorter than 8 bytes
(logging only, state untouched); otherwise splits off the 8-byte header,
reads `width` then `height` as little-endian u32, and replaces the current
image state with the parsed triple. No payload-size check is performed. -/
def handleIncomingData (cur : Option RawImageData) (data : List Nat) :
    Option RawImageData :=
  if data.length < 8 then cur
  else
    let headerBuffer := data.take 8
    let pixelDataBuffer := data.drop 8
    let width := getUint32LE headerBuffer 0
    let height := getUint32LE headerBuffer 4
    some { data := pixelDataBuffer, width := width, height := height }

/-! ## Progress bar drag state machine (App.tsx variants, `ProgressBar`)

The variant with a locally tracked drag position (`isDragging`, `dragPos`
React state). Pixel coordinates and fractions are modelled as rationals. -/

structure ProgressBarState where
  isDragging : Bool
  dragPos : ℚ
deriving DecidableEq

/-- `updateProgressFromEvent(e)`: computes
`fraction = Math.min(Math.max((e.clientX - rect.left) / rect.width, 0), 1)`,
stores it in `dragPos`, and passes it to `props.onChange` (the seek
callback). Returns the new state and the fraction handed to the callback. -/
def updateProgressFromEvent (s : ProgressBarState)
    (clientX rectLeft rectWidth : ℚ) : ProgressBarState × ℚ :=
  let x := clientX - rectLeft
  let fraction := min (max (x / rectWidth) 0) 1
  ({ s with dragPos := fraction }, fraction)

/-- `handleMouseDown`: enters the dragging state, then updates from the
event. -/
def handleMouseDown (s : ProgressBarState)
    (clientX rectLeft rectWidth : ℚ) : ProgressBarState × ℚ :=
  updateProgressFromEvent { s with isDragging := true } clientX rectLeft rectWidth

/-- `handleMouseMove`: updates from the event only while dragging; returns
the fraction passed to the seek callback, if any. -/
def handleMouseMove (s : ProgressBarState)
    (clientX rectLeft rectWidth : ℚ) : ProgressBarState × Option ℚ :=
  if s.isDragging then
    let r := updateProgressFromEvent s clientX rectLeft rectWidth
    (r.1, some r.2)
  else (s, none)

/-- `handleMouseUp`: leaves the dragging state and resets the local drag
position. -/
def handleMouseUp (_s : ProgressBarState) : ProgressBarState :=
  { isDragging := false, dragPos := 0 }

/-- The fraction the bar renders
(`width: (isDragging ? dragPos : props.progress) * 100 %`): the local drag
position while dragging, the externally supplied progress otherwise. -/
def renderedWidthFraction (s : ProgressBarState) (progress : ℚ) : ℚ :=
  if s.isDragging then s.dragPos else progress

/-! ## Theorems -/

/-- C1: after a successful `init` with dimensions `(w, h)`, processing a
`frame` message whose buffer has exactly `w * h * 4` bytes uploads the
buffer into the existing texture (the texture stays allocated, only its
content changes to the buffer's bytes) and issues exactly one draw call,
synchronously within the handler; no other state changes and nothing is
posted back, so the texture afterwards holds exactly the last accepted
buffer. -/
theorem init_then_frame_uploads_and_draws_once (env : GLEnv) (w h : Nat)
    (buf : List Nat) (hok : envOk env = true) (hlen : buf.length = w * h * 4) :
    workerOnMessage env initialWorkerState (WorkerMsg.init w h)
      = (⟨true, w, h, some (List.replicate (w * h * 4) 0), true, true⟩, [], 0) ∧
    workerOnMessage env
        ⟨true, w, h, some (List.replicate (w * h * 4) 0), true, true⟩
        (WorkerMsg.frame buf)
      = (⟨true, w, h, some buf, true, true⟩, [], 1) := by
  simp only [envOk, Bool.and_eq_true] at hok
  obtain ⟨⟨⟨h1, h2⟩, h3⟩, h4⟩ := hok
  constructor
  · simp [workerOnMessage, initGL, createProgram, compileShader,
      h1, h2, h3, h4, initialWorkerState]
  · simp [workerOnMessage, renderFrameFromBuffer, hlen]

theorem init_then_frame_uploads_and_draws_once_witness :
    envOk ⟨true, true, true, true, "", "", ""⟩ = true ∧
    ([1, 2, 3, 4] : List Nat).length = 1 * 1 * 4 ∧
    (workerOnMessage ⟨true, true, true, true, "", "", ""⟩ initialWorkerState
        (WorkerMsg.init 1 1)
      = (⟨true, 1, 1, some (List.replicate (1 * 1 * 4) 0), true, true⟩, [], 0) ∧
    workerOnMessage ⟨true, true, true, true, "", "", ""⟩
        ⟨true, 1, 1, some (List.replicate (1 * 1 * 4) 0), true, true⟩
        (WorkerMsg.frame [1, 2, 3, 4])
      = (⟨true, 1, 1, some [1, 2, 3, 4], true, true⟩, [], 1)) :=
  ⟨by decide, by decide,
    init_then_frame_uploads_and_draws_once _ 1 1 [1, 2, 3, 4] (by decide) (by decide)⟩

/-- C2: a `frame` message whose buffer length differs from
`videoW * videoH * 4` produces zero draw calls, leaves the entire worker
state (texture included) unchanged, and posts nothing back — the drop is
silent. Stated for every worker state, so in particular for every
initialized one. -/
theorem frame_size_mismatch_is_silent_drop (env : GLEnv) (s : WorkerState)
    (buf : List Nat) (hlen : buf.length ≠ s.videoW * s.videoH * 4) :
    workerOnMessage env s (WorkerMsg.frame buf) = (s, [], 0) := by
  have hr : renderFrameFromBuffer s buf = (s, 0) := by
    unfold renderFrameFromBuffer
    split
    · rfl
    · simp [hlen]
  simp [workerOnMessage, hr]

theorem frame_size_mismatch_is_silent_drop_witness :
    ([0, 0, 0] : List Nat).length
        ≠ (⟨true, 2, 2, some [], true, true⟩ : WorkerState).videoW
            * (⟨true, 2, 2, some [], true, true⟩ : WorkerState).videoH * 4 ∧
    workerOnMessage ⟨true, true, true, true, "", "", ""⟩
        ⟨true, 2, 2, some [], true, true⟩ (WorkerMsg.frame [0, 0, 0])
      = (⟨true, 2, 2, some [], true, true⟩, [], 0) :=
  ⟨by decide,
    frame_size_mismatch_is_silent_drop _ ⟨true, 2, 2, some [], true, true⟩
      [0, 0, 0] (by decide)⟩

/-- C5: a `frame` message processed while the GPU context, texture or
program is not yet established (as is the case before a successful `init`)
performs no draw call and no texture upload, changes nothing, posts
nothing back, and the handler returns normally. -/
theorem frame_before_init_is_noop (env : GLEnv) (s : WorkerState)
    (buf : List Nat)
    (h : s.gl = false ∨ s.texture = none ∨ s.program = false) :
    workerOnMessage env s (WorkerMsg.frame buf) = (s, [], 0) := by
  have hr : renderFrameFromBuffer s buf = (s, 0) := by
    unfold renderFrameFromBuffer
    rw [if_pos h]
  simp [workerOnMessage, hr]

theorem frame_before_init_is_noop_witness :
    (initialWorkerState.gl = false ∨ initialWorkerState.texture = none ∨
      initialWorkerState.program = false) ∧
    workerOnMessage ⟨true, true, true, true, "", "", ""⟩ initialWorkerState
        (WorkerMsg.frame [1, 2, 3, 4]) = (initialWorkerState, [], 0) :=
  ⟨Or.inl rfl,
    frame_before_init_is_noop _ initialWorkerState [1, 2, 3, 4] (Or.inl rfl)⟩

/-- C4: when `init` fails — no WebGL2 context, a shader compile error, or
a program link error — the worker posts exactly one `error` message
carrying a diagnostic string back to the caller, issues no draw, and
remains inert: a subsequent `frame` message changes nothing, draws
nothing and posts nothing. -/
theorem failed_init_posts_error_and_stays_inert (env : GLEnv) (w h : Nat)
    (buf : List Nat) (hfail : envOk env = false) :
    (∃ m, (workerOnMessage env initialWorkerState (WorkerMsg.init w h)).2.1
        = [WorkerOut.error m]) ∧
    (workerOnMessage env initialWorkerState (WorkerMsg.init w h)).2.2 = 0 ∧
    workerOnMessage env
        (workerOnMessage env initialWorkerState (WorkerMsg.init w h)).1
        (WorkerMsg.frame buf)
      = ((workerOnMessage env initialWorkerState (WorkerMsg.init w h)).1,
         [], 0) := by
  obtain ⟨c, v, f, l, vl, fl, ll⟩ := env
  simp only [envOk] at hfail
  cases c <;> cases v <;> cases f <;> cases l <;>
    simp_all [workerOnMessage, initGL, createProgram, compileShader,
      renderFrameFromBuffer, initialWorkerState]

theorem failed_init_posts_error_and_stays_inert_witness :
    envOk ⟨false, true, true, true, "", "", ""⟩ = false ∧
    ((∃ m, (workerOnMessage ⟨false, true, true, true, "", "", ""⟩
          initialWorkerState (WorkerMsg.init 2 2)).2.1
        = [WorkerOut.error m]) ∧
    (workerOnMessage ⟨false, true, true, true, "", "", ""⟩
        initialWorkerState (WorkerMsg.init 2 2)).2.2 = 0 ∧
    workerOnMessage ⟨false, true, true, true, "", "", ""⟩
        (workerOnMessage ⟨false, true, true, true, "", "", ""⟩
          initialWorkerState (WorkerMsg.init 2 2)).1
        (WorkerMsg.frame [5])
      = ((workerOnMessage ⟨false, true, true, true, "", "", ""⟩
          initialWorkerState (WorkerMsg.init 2 2)).1, [], 0)) :=
  ⟨by decide,
    failed_init_posts_error_and_stays_inert ⟨false, true, true, true, "", "", ""⟩
      2 2 [5] (by decide)⟩

/-- Helper: a successful `init w h` followed by frames of byte lengths
correct, incorrect, correct ends with the texture holding the third
payload and exactly two draw calls in total. -/
theorem runWorker_init_ok_bad_ok (env : GLEnv) (w h : Nat)
    (b1 b2 b3 : List Nat) (hok : envOk env = true)
    (h1 : b1.length = w * h * 4) (h2 : b2.length ≠ w * h * 4)
    (h3 : b3.length = w * h * 4) :
    runWorker env initialWorkerState
        [WorkerMsg.init w h, WorkerMsg.frame b1, WorkerMsg.frame b2,
         WorkerMsg.frame b3]
      = (⟨true, w, h, some b3, true, true⟩, [], 2) := by
  simp only [envOk, Bool.and_eq_true] at hok
  obtain ⟨⟨⟨hc, hv⟩, hf⟩, hl⟩ := hok
  simp [runWorker, workerOnMessage, initGL, createProgram, compileShader,
    renderFrameFromBuffer, initialWorkerState, hc, hv, hf, hl, h1, h2, h3]

/-- C6: a worker initialized at 256 × 256 that then processes three frame
messages with byte lengths correct, incorrect, correct issues exactly two
draw calls in total, and the texture afterwards holds the third message's
payload — which, whenever the first and third payloads differ, is not the
first message's payload. -/
theorem frames_ok_bad_ok_draw_twice_latest_wins (env : GLEnv)
    (b1 b2 b3 : List Nat) (hok : envOk env = true)
    (h1 : b1.length = 256 * 256 * 4) (h2 : b2.length ≠ 256 * 256 * 4)
    (h3 : b3.length = 256 * 256 * 4) (hne : b1 ≠ b3) :
    (runWorker env initialWorkerState
        [WorkerMsg.init 256 256, WorkerMsg.frame b1, WorkerMsg.frame b2,
         WorkerMsg.frame b3]).2.2 = 2 ∧
    (runWorker env initialWorkerState
        [WorkerMsg.init 256 256, WorkerMsg.frame b1, WorkerMsg.frame b2,
         WorkerMsg.frame b3]).1.texture = some b3 ∧
    (runWorker env initialWorkerState
        [WorkerMsg.init 256 256, WorkerMsg.frame b1, WorkerMsg.frame b2,
         WorkerMsg.frame b3]).1.texture ≠ some b1 := by
  rw [runWorker_init_ok_bad_ok env 256 256 b1 b2 b3 hok h1 h2 h3]
  refine ⟨rfl, rfl, fun hc => hne (Option.some.inj hc).symm⟩

theorem frames_ok_bad_ok_draw_twice_latest_wins_witness :
    envOk ⟨true, true, true, true, "", "", ""⟩ = true ∧
    (1 :: List.replicate 262143 0 : List Nat).length = 256 * 256 * 4 ∧
    ([] : List Nat).length ≠ 256 * 256 * 4 ∧
    (3 :: List.replicate 262143 0 : List Nat).length = 256 * 256 * 4 ∧
    (1 :: List.replicate 262143 0 : List Nat) ≠ 3 :: List.replicate 262143 0 ∧
    ((runWorker ⟨true, true, true, true, "", "", ""⟩ initialWorkerState
        [WorkerMsg.init 256 256, WorkerMsg.frame (1 :: List.replicate 262143 0),
         WorkerMsg.frame [], WorkerMsg.frame (3 :: List.replicate 262143 0)]).2.2
        = 2 ∧
     (runWorker ⟨true, true, true, true, "", "", ""⟩ initialWorkerState
        [WorkerMsg.init 256 256, WorkerMsg.frame (1 :: List.replicate 262143 0),
         WorkerMsg.frame [], WorkerMsg.frame (3 :: List.replicate 262143 0)]).1.texture
        = some (3 :: List.replicate 262143 0) ∧
     (runWorker ⟨true, true, true, true, "", "", ""⟩ initialWorkerState
        [WorkerMsg.init 256 256, WorkerMsg.frame (1 :: List.replicate 262143 0),
         WorkerMsg.frame [], WorkerMsg.frame (3 :: List.replicate 262143 0)]).1.texture
        ≠ some (1 :: List.replicate 262143 0)) := by
  have hl1 : (1 :: List.replicate 262143 0 : List Nat).length = 256 * 256 * 4 := by
    rw [List.length_cons, List.length_replicate]
  have hl3 : (3 :: List.replicate 262143 0 : List Nat).length = 256 * 256 * 4 := by
    rw [List.length_cons, List.length_replicate]
  have hne : (1 :: List.replicate 262143 0 : List Nat)
      ≠ 3 :: List.replicate 262143 0 :=
    fun hc => absurd (Option.some.inj (congrArg List.head? hc)) (by decide)
  exact ⟨by decide, hl1, by decide, hl3, hne,
    frames_ok_bad_ok_draw_twice_latest_wins ⟨true, true, true, true, "", "", ""⟩
      _ _ _ (by decide) hl1 (by decide) hl3 hne⟩

/-- C3: evaluation of the transfer channel at the failure scenario the
claim describes. A buffer that is still attached is delivered by the
transferring post. But for a buffer that is already detached — the very
case the fallback targets — the transferring post throws, and the
fallback's `ab.slice(0)` then also throws (slicing a detached
`ArrayBuffer` raises a `TypeError`), so the exception escapes the handler
and the frame is dropped, contradicting the claim. -/
theorem detached_buffer_fallback_also_throws :
    wsOnMessage { bytes := [0, 1, 2, 3], detached := false }
      = ChannelResult.delivered [0, 1, 2, 3] ∧
    wsOnMessage { bytes := [0, 1, 2, 3], detached := true }
      = ChannelResult.uncaughtException :=
  ⟨rfl, rfl⟩

/-- Helper: on a binary message of at least 8 bytes, `handleIncomingData`
replaces the image state with the payload after the header and the two
header fields read little-endian directly off the message bytes. -/
theorem handleIncomingData_of_length_ge (cur : Option RawImageData)
    (data : List Nat) (h : 8 ≤ data.length) :
    handleIncomingData cur data
      = some { data := data.drop 8,
               width := data.getD 0 0 % 256 + data.getD 1 0 % 256 * 256
                 + data.getD 2 0 % 256 * 65536
                 + data.getD 3 0 % 256 * 16777216,
               height := data.getD 4 0 % 256 + data.getD 5 0 % 256 * 256
                 + data.getD 6 0 % 256 * 65536
                 + data.getD 7 0 % 256 * 16777216 } := by
  have take8 : ∀ i, i < 8 → (data.take 8).getD i 0 = data.getD i 0 := by
    intro i hi
    simp [List.getD_eq_getElem?_getD, List.getElem?_take_of_lt hi]
  unfold handleIncomingData
  rw [if_neg (by omega)]
  simp only [getUint32LE, take8 0 (by norm_num), take8 1 (by norm_num),
    take8 2 (by norm_num), take8 3 (by norm_num), take8 4 (by norm_num),
    take8 5 (by norm_num), take8 6 (by norm_num), take8 7 (by norm_num)]

/-- C7: every binary message of at least 8 bytes on the header-framing
receive path is parsed with its first four bytes as the little-endian
unsigned 32-bit `width`, its next four bytes as the little-endian
unsigned 32-bit `height`, and all remaining bytes of the same message as
the pixel payload. -/
theorem header_fields_are_little_endian_u32 (cur : Option RawImageData)
    (data : List Nat) (h : 8 ≤ data.length) :
    handleIncomingData cur data
      = some { data := data.drop 8,
               width := data.getD 0 0 % 256 + data.getD 1 0 % 256 * 256
                 + data.getD 2 0 % 256 * 65536
                 + data.getD 3 0 % 256 * 16777216,
               height := data.getD 4 0 % 256 + data.getD 5 0 % 256 * 256
                 + data.getD 6 0 % 256 * 65536
                 + data.getD 7 0 % 256 * 16777216 } :=
  handleIncomingData_of_length_ge cur data h

theorem header_fields_are_little_endian_u32_witness :
    8 ≤ ([1, 0, 0, 0, 2, 0, 0, 0, 9] : List Nat).length ∧
    handleIncomingData none [1, 0, 0, 0, 2, 0, 0, 0, 9]
      = some { data := [9], width := 1, height := 2 } :=
  ⟨by decide,
    (header_fields_are_little_endian_u32 none [1, 0, 0, 0, 2, 0, 0, 0, 9]
      (by decide)).trans (by decide)⟩

/-- C10: on the header-framing receive path, a message shorter than 8
bytes leaves the current image state unchanged, while every message of at
least 8 bytes replaces the state with the parsed header fields and the
remaining payload bytes, with no validation that the payload length
matches `width * height * 4` — the replacement happens for every payload
whatsoever. -/
theorem short_message_kept_long_message_replaces_unvalidated
    (cur : Option RawImageData) (data : List Nat) :
    handleIncomingData cur data
      = if data.length < 8 then cur
        else some { data := data.drop 8,
                    width := data.getD 0 0 % 256 + data.getD 1 0 % 256 * 256
                      + data.getD 2 0 % 256 * 65536
                      + data.getD 3 0 % 256 * 16777216,
                    height := data.getD 4 0 % 256 + data.getD 5 0 % 256 * 256
                      + data.getD 6 0 % 256 * 65536
                      + data.getD 7 0 % 256 * 16777216 } := by
  by_cases h : data.length < 8
  · rw [if_pos h]
    unfold handleIncomingData
    rw [if_pos h]
  · rw [if_neg h]
    exact handleIncomingData_of_length_ge cur data (by omega)

/-- C8: for a pointer-down (and likewise a pointer-move while dragging) at
absolute x-coordinate `P` on a bar with left edge `L` and positive width
`W`, the fraction handed to the seek callback is exactly
`min (max ((P - L) / W) 0) 1`; it always lies in `[0, 1]`, raw values
below `0` clamp to `0`, and raw values above `1` clamp to `1`. -/
theorem drag_fraction_clamped (s : ProgressBarState) (P L W : ℚ)
    (_hW : 0 < W) :
    (handleMouseDown s P L W).2 = min (max ((P - L) / W) 0) 1 ∧
    handleMouseMove ⟨true, s.dragPos⟩ P L W
      = (⟨true, min (max ((P - L) / W) 0) 1⟩,
         some (min (max ((P - L) / W) 0) 1)) ∧
    0 ≤ (handleMouseDown s P L W).2 ∧
    (handleMouseDown s P L W).2 ≤ 1 ∧
    ((P - L) / W < 0 → (handleMouseDown s P L W).2 = 0) ∧
    (1 < (P - L) / W → (handleMouseDown s P L W).2 = 1) := by
  refine ⟨rfl, ?_, ?_, ?_, ?_, ?_⟩
  · simp [handleMouseMove, updateProgressFromEvent]
  · exact le_min (le_max_right _ _) zero_le_one
  · exact min_le_right _ _
  · intro hlt
    show min (max ((P - L) / W) 0) 1 = 0
    rw [max_eq_right hlt.le, min_eq_left zero_le_one]
  · intro hgt
    show min (max ((P - L) / W) 0) 1 = 1
    rw [max_eq_left (le_of_lt (lt_trans zero_lt_one hgt)), min_eq_right hgt.le]

theorem drag_fraction_clamped_witness :
    (0 : ℚ) < 2 ∧
    ((handleMouseDown ⟨false, 0⟩ 7 1 2).2 = min (max ((7 - 1) / 2) 0) 1 ∧
    handleMouseMove ⟨true, (⟨false, 0⟩ : ProgressBarState).dragPos⟩ 7 1 2
      = (⟨true, min (max (((7 : ℚ) - 1) / 2) 0) 1⟩,
         some (min (max (((7 : ℚ) - 1) / 2) 0) 1)) ∧
    0 ≤ (handleMouseDown ⟨false, 0⟩ 7 1 2).2 ∧
    (handleMouseDown ⟨false, 0⟩ 7 1 2).2 ≤ 1 ∧
    (((7 : ℚ) - 1) / 2 < 0 → (handleMouseDown ⟨false, 0⟩ 7 1 2).2 = 0) ∧
    (1 < ((7 : ℚ) - 1) / 2 → (handleMouseDown ⟨false, 0⟩ 7 1 2).2 = 1)) :=
  ⟨by norm_num, drag_fraction_clamped ⟨false, 0⟩ 7 1 2 (by norm_num)⟩

/-- C9: while the bar is dragging it renders the locally tracked drag
position, not the externally supplied progress value — in particular,
right after a pointer-down the rendered fraction is exactly the fraction
the event handler just computed; pointer-up leaves the dragging state and
resets the local drag position to `0`, after which the bar renders the
external progress value again. -/
theorem dragging_renders_local_position_until_mouseup
    (s : ProgressBarState) (d P L W ext : ℚ) :
    renderedWidthFraction ⟨true, d⟩ ext = d ∧
    (handleMouseDown s P L W).1.isDragging = true ∧
    renderedWidthFraction (handleMouseDown s P L W).1 ext
      = (handleMouseDown s P L W).2 ∧
    handleMouseUp ⟨true, d⟩ = ⟨false, 0⟩ ∧
    renderedWidthFraction (handleMouseUp ⟨true, d⟩) ext = ext :=
  ⟨rfl, rfl, rfl, rfl, rfl⟩
